import Mathlib

/-!
Verification of the QEC control emulator's classical decoding and analysis
layer (a shallow embedding of the Python sources in `src/`).

The circuits under study contain only X/CNOT gates on computational-basis
inputs (plus ancilla-coupled stabilizer measurements), so their classical
decoding functions — syndrome lookup tables, majority vote, success
tallies — are pure functions on bit-strings and count dictionaries.  Each
Python function used by a claim is translated here, keeping its name and
its exact control flow.
-/

namespace QECEmu

/-- Python `dict` literal semantics: a dictionary built from a literal keeps,
for a repeated key, the *last* value assigned to it, and `d.get(k, dflt)`
returns that value or `dflt` when `k` was never assigned.  We model a dict
literal as the association list of its entries in source order and look up
the last matching entry. -/
def pyDictGet {α : Type} (entries : List (String × α)) (key : String) (dflt : α) : α :=
  match entries.reverse.find? (fun e => e.1 == key) with
  | some e => e.2
  | none => dflt

/-! ## five_qubit_code.py -/

/-- The `syndrome_table` dict literal of `decode_five_qubit_syndrome`
(src/src/five_qubit_code.py, lines 199-222), entry for entry in source
order, duplicate keys included.  Values `(error_qubit, error_type)`;
Python `None` is `Option.none`. -/
def fiveQubitSyndromeEntries : List (String × (Option Nat × Option String)) :=
  [("0000", (none, none)),
   -- X errors on each qubit
   ("1011", (some 0, some "X")),
   ("0111", (some 1, some "X")),
   ("1101", (some 2, some "X")),
   ("1110", (some 3, some "X")),
   ("0110", (some 4, some "X")),
   -- Z errors on each qubit
   ("0101", (some 0, some "Z")),
   ("1010", (some 1, some "Z")),
   ("0011", (some 2, some "Z")),
   ("1100", (some 3, some "Z")),
   ("1001", (some 4, some "Z")),
   -- Y errors on each qubit
   ("1110", (some 0, some "Y")),
   ("1101", (some 1, some "Y")),
   ("1110", (some 2, some "Y")),
   ("0010", (some 3, some "Y")),
   ("1111", (some 4, some "Y"))]

/-- `decode_five_qubit_syndrome(syndrome)` (five_qubit_code.py:185-224):
`syndrome_table.get(syndrome, (None, 'Unknown'))`. -/
def decode_five_qubit_syndrome (syndrome : String) : Option Nat × Option String :=
  pyDictGet fiveQubitSyndromeEntries syndrome (none, some "Unknown")

/-- The 13 distinct keys of the table literal. -/
def fiveQubitDistinctKeys : List String :=
  ["0000", "1011", "0111", "1101", "1110", "0110",
   "0101", "1010", "0011", "1100", "1001", "0010", "1111"]

/-- The 12 distinct non-zero keys of the table literal. -/
def fiveQubitNonzeroKeys : List String :=
  ["1011", "0111", "1101", "1110", "0110",
   "0101", "1010", "0011", "1100", "1001", "0010", "1111"]

/-- C1: the five-qubit code's syndrome table literal is self-contradictory:
the key `"1110"` is listed for `(3,'X')`, `(0,'Y')` and `(2,'Y')`, and
`"1101"` for `(2,'X')` and `(1,'Y')`; for such a syndrome
`decode_five_qubit_syndrome` returns only the last-listed entry of the
dict literal. -/
theorem five_qubit_table_self_contradictory :
    ("1110", (some 3, some "X")) ∈ fiveQubitSyndromeEntries ∧
    ("1110", (some 0, some "Y")) ∈ fiveQubitSyndromeEntries ∧
    ("1110", (some 2, some "Y")) ∈ fiveQubitSyndromeEntries ∧
    ("1101", (some 2, some "X")) ∈ fiveQubitSyndromeEntries ∧
    ("1101", (some 1, some "Y")) ∈ fiveQubitSyndromeEntries ∧
    decode_five_qubit_syndrome "1110" = (some 2, some "Y") ∧
    decode_five_qubit_syndrome "1101" = (some 1, some "Y") := by
  decide

/-- A `pyDictGet` on entries none of whose keys equals `key` returns the
default — the branch Python's `.get` takes for an unknown syndrome. -/
theorem pyDictGet_default {α : Type} (entries : List (String × α)) (key : String) (dflt : α)
    (h : ∀ e ∈ entries, e.1 ≠ key) : pyDictGet entries key dflt = dflt := by
  have hf : entries.reverse.find? (fun e => e.1 == key) = none := by
    rw [List.find?_eq_none]
    intro e he
    simpa using h e (List.mem_reverse.mp he)
  simp [pyDictGet, hf]

/-- C10: `decode_five_qubit_syndrome` is total and deterministic: it returns
`(None, None)` exactly on `"0000"`, a `(qubit, error-type)` pair on each of
the 12 other distinct table keys, the sentinel `(None, 'Unknown')` on every
non-key string, and equal outputs on equal inputs. -/
theorem decode_five_qubit_total (s : String) :
    (decode_five_qubit_syndrome s = (none, none) ↔ s = "0000") ∧
    (s ∈ fiveQubitNonzeroKeys →
      (decode_five_qubit_syndrome s).1.isSome = true ∧
      (decode_five_qubit_syndrome s).2.isSome = true) ∧
    (s ∉ fiveQubitDistinctKeys → decode_five_qubit_syndrome s = (none, some "Unknown")) ∧
    (∀ t : String, s = t → decode_five_qubit_syndrome s = decode_five_qubit_syndrome t) := by
  by_cases h : s ∈ fiveQubitDistinctKeys
  · fin_cases h <;>
      exact ⟨by decide, by decide, by decide, fun t ht => by rw [ht]⟩
  · have hkeys : ∀ e ∈ fiveQubitSyndromeEntries, e.1 ∈ fiveQubitDistinctKeys := by decide
    have hne : ∀ e ∈ fiveQubitSyndromeEntries, e.1 ≠ s := fun e he hs => h (hs ▸ hkeys e he)
    have hdec : decode_five_qubit_syndrome s = (none, some "Unknown") :=
      pyDictGet_default _ _ _ hne
    refine ⟨⟨fun hc => ?_, fun h0 => ?_⟩, fun hnz => ?_, fun _ => hdec, fun t ht => by rw [ht]⟩
    · rw [hdec] at hc
      exact absurd hc (by decide)
    · exact absurd (by rw [h0]; decide) h
    · have hsub : ∀ x ∈ fiveQubitNonzeroKeys, x ∈ fiveQubitDistinctKeys := by decide
      exact absurd (hsub s hnz) h

/-- Witness for `decode_five_qubit_total` at concrete syndromes. -/
theorem decode_five_qubit_total_witness :
    ("abcd" ∉ fiveQubitDistinctKeys ∧
      decode_five_qubit_syndrome "abcd" = (none, some "Unknown")) ∧
    ("1011" ∈ fiveQubitNonzeroKeys ∧
      (decode_five_qubit_syndrome "1011").1.isSome = true) :=
  ⟨⟨by decide, (decode_five_qubit_total "abcd").2.2.1 (by decide)⟩,
   ⟨by decide, ((decode_five_qubit_total "1011").2.1 (by decide)).1⟩⟩

/-! ## steane_code.py -/

/-- Python `table.get(k)` on an association list whose stored values are
already `Option Nat` (the tables store `None` at key `'000'`): a missing
key and a stored `None` both yield `none`. -/
def steaneTableGet (table : List (String × Option Nat)) (s : String) : Option Nat :=
  match table.find? (fun e => e.1 == s) with
  | some e => e.2
  | none => none

/-- `x_syndrome_table` of `decode_steane_syndrome` (steane_code.py:203-212). -/
def x_syndrome_table : List (String × Option Nat) :=
  [("000", none),
   ("111", some 0), ("110", some 1), ("101", some 2), ("011", some 3),
   ("010", some 4), ("001", some 5), ("100", some 6)]

/-- `z_syndrome_table` of `decode_steane_syndrome` (steane_code.py:214-223). -/
def z_syndrome_table : List (String × Option Nat) :=
  [("000", none),
   ("111", some 0), ("110", some 1), ("101", some 2), ("011", some 3),
   ("010", some 4), ("001", some 5), ("100", some 6)]

/-- `decode_steane_syndrome(syndrome_x, syndrome_z)` (steane_code.py:190-239):
both tables are consulted; equal identified qubits give `(q,'Y')`, different
identified qubits give `(None,'Unknown')`, a single identified qubit gives
`(q,'X')` or `(q,'Z')`, neither gives `(None, None)`. -/
def decode_steane_syndrome (syndrome_x syndrome_z : String) : Option Nat × Option String :=
  match steaneTableGet x_syndrome_table syndrome_x,
        steaneTableGet z_syndrome_table syndrome_z with
  | some a, some b => if a = b then (some a, some "Y") else (none, some "Unknown")
  | some a, none => (some a, some "X")
  | none, some b => (some b, some "Z")
  | none, none => (none, none)

/-- Counterexample to C2: X-syndrome `"011"` identifies qubit 3 and
Z-syndrome `"001"` identifies qubit 5, yet `decode_steane_syndrome` does
not return those two corrections — it returns `(None, 'Unknown')`,
identifying no qubit at all. -/
theorem decode_steane_cross_counterexample :
    steaneTableGet x_syndrome_table "011" = some 3 ∧
    steaneTableGet z_syndrome_table "001" = some 5 ∧
    decode_steane_syndrome "011" "001" = (none, some "Unknown") ∧
    (decode_steane_syndrome "011" "001").1 ≠ some 3 ∧
    (decode_steane_syndrome "011" "001").1 ≠ some 5 := by
  decide

/-- C2 amended: the two syndrome tables are looked up independently, but
whenever they identify *different* qubits, `decode_steane_syndrome` returns
`(None, 'Unknown')` instead of the two per-type corrections. -/
theorem decode_steane_cross_qubit_unknown (sx sz : String) (a b : Nat)
    (hx : steaneTableGet x_syndrome_table sx = some a)
    (hz : steaneTableGet z_syndrome_table sz = some b)
    (hab : a ≠ b) :
    decode_steane_syndrome sx sz = (none, some "Unknown") := by
  simp only [decode_steane_syndrome, hx, hz]
  rw [if_neg hab]

/-- Witness for `decode_steane_cross_qubit_unknown` at syndromes
`("011", "001")`, i.e. identified qubits 3 and 5. -/
theorem decode_steane_cross_qubit_unknown_witness :
    decode_steane_syndrome "011" "001" = (none, some "Unknown") :=
  decode_steane_cross_qubit_unknown "011" "001" 3 5 (by decide) (by decide) (by decide)

/-! ## surface_code.py -/

/-- `decode_surface_syndrome(syndrome_x, syndrome_z)` (surface_code.py:195-227):
the sequential `if/return` chain of the source, one guard per case. -/
def decode_surface_syndrome (syndrome_x syndrome_z : String) : Option String × Option String :=
  if syndrome_x = "0000" ∧ syndrome_z = "0000" then (none, none)
  else if syndrome_x = "0000" ∧ syndrome_z ≠ "0000" then
    (some "X-error detected", some "X")
  else if syndrome_x ≠ "0000" ∧ syndrome_z = "0000" then
    (some "Z-error detected", some "Z")
  else if syndrome_x ≠ "0000" ∧ syndrome_z ≠ "0000" then
    (some "Y-error or multiple errors", some "Y")
  else (some "Unknown", some "Unknown")

/-- C4: `decode_surface_syndrome` classifies every syndrome pair into exactly
one of four cases: `(None, None)` iff both syndromes are `"0000"`; an X-error
report when only the Z-syndrome is nonzero; a Z-error report when only the
X-syndrome is nonzero; the ambiguous `'Y-error or multiple errors'` report
when both are nonzero. -/
theorem decode_surface_classification (sx sz : String) :
    (decode_surface_syndrome sx sz = (none, none) ↔ (sx = "0000" ∧ sz = "0000")) ∧
    (sx = "0000" → sz ≠ "0000" →
      decode_surface_syndrome sx sz = (some "X-error detected", some "X")) ∧
    (sx ≠ "0000" → sz = "0000" →
      decode_surface_syndrome sx sz = (some "Z-error detected", some "Z")) ∧
    (sx ≠ "0000" → sz ≠ "0000" →
      decode_surface_syndrome sx sz = (some "Y-error or multiple errors", some "Y")) := by
  unfold decode_surface_syndrome
  by_cases hx : sx = "0000" <;> by_cases hz : sz = "0000" <;> simp [hx, hz]

/-- Witness for `decode_surface_classification` on one representative of
each nonzero-syndrome case. -/
theorem decode_surface_classification_witness :
    decode_surface_syndrome "0000" "0100" = (some "X-error detected", some "X") ∧
    decode_surface_syndrome "0010" "0000" = (some "Z-error detected", some "Z") ∧
    decode_surface_syndrome "1000" "0001" = (some "Y-error or multiple errors", some "Y") :=
  ⟨(decode_surface_classification "0000" "0100").2.1 rfl (by decide),
   (decode_surface_classification "0010" "0000").2.2.1 (by decide) rfl,
   (decode_surface_classification "1000" "0001").2.2.2 (by decide) (by decide)⟩

/-! ## error_models.py

The channel constructors of `QuantumErrorModels` compute the arguments they
hand to the backend's error factories (`qiskit_aer.noise.pauli_error`,
`depolarizing_error`) and wrap the result in a `NoiseModel`.  Those
factories and `NoiseModel` are external library code, outside this
repository; the repository's own contribution is the argument computation
and the one explicit `raise` in `custom_pauli_channel`.  We embed each
constructor as the backend request it builds, inside `Except` so that the
repository-level error path (`raise ValueError`, the spec's
`InvalidArgument`) is visible.  Probabilities are exact rationals. -/

/-- Single-qubit Pauli labels used in the probability lists. -/
inductive Pauli where
  | I
  | X
  | Y
  | Z
deriving DecidableEq, Repr

/-- The call a channel constructor makes into the external backend. -/
inductive BackendRequest where
  | pauliError (dist : List (Pauli × ℚ))
  | depolarizingError (p : ℚ) (numQubits : ℕ)
deriving DecidableEq, Repr

/-- `bit_flip_channel(p)` (error_models.py:52-69): unconditionally calls
`pauli_error([('X', p), ('I', 1 - p)])` — no validation of `p`. -/
def bit_flip_channel (p : ℚ) : Except String BackendRequest :=
  .ok (.pauliError [(.X, p), (.I, 1 - p)])

/-- `phase_flip_channel(p)` (error_models.py:71-88): unconditionally calls
`pauli_error([('Z', p), ('I', 1 - p)])`. -/
def phase_flip_channel (p : ℚ) : Except String BackendRequest :=
  .ok (.pauliError [(.Z, p), (.I, 1 - p)])

/-- `bit_phase_flip_channel(p)` (error_models.py:90-107): unconditionally
calls `pauli_error([('Y', p), ('I', 1 - p)])`. -/
def bit_phase_flip_channel (p : ℚ) : Except String BackendRequest :=
  .ok (.pauliError [(.Y, p), (.I, 1 - p)])

/-- `depolarizing_channel(p)` (error_models.py:33-50): unconditionally calls
`depolarizing_error(p, 1)`, forwarding `p` verbatim. -/
def depolarizing_channel (p : ℚ) : Except String BackendRequest :=
  .ok (.depolarizingError p 1)

/-- `custom_pauli_channel(px, py, pz)` (error_models.py:168-191): raises
`ValueError` when `px + py + pz > 1`, otherwise builds
`pauli_error([('X', px), ('Y', py), ('Z', pz), ('I', 1 - (px+py+pz))])`. -/
def custom_pauli_channel (px py pz : ℚ) : Except String BackendRequest :=
  if px + py + pz > 1 then .error "Sum of error probabilities must be <= 1"
  else .ok (.pauliError [(.X, px), (.Y, py), (.Z, pz), (.I, 1 - (px + py + pz))])

/-- C5: `custom_pauli_channel` fails iff `px + py + pz > 1` (constructing no
channel in that case), and otherwise builds the Pauli distribution with
probability `px`, `py`, `pz` for X, Y, Z and exactly `1 - (px+py+pz)` for
identity. -/
theorem custom_pauli_channel_spec (px py pz : ℚ) :
    ((∃ e, custom_pauli_channel px py pz = .error e) ↔ px + py + pz > 1) ∧
    (px + py + pz ≤ 1 →
      custom_pauli_channel px py pz =
        .ok (.pauliError [(.X, px), (.Y, py), (.Z, pz), (.I, 1 - (px + py + pz))])) := by
  unfold custom_pauli_channel
  by_cases h : px + py + pz > 1
  · rw [if_pos h]
    exact ⟨⟨fun _ => h, fun _ => ⟨_, rfl⟩⟩, fun hle => absurd h (not_lt.mpr hle)⟩
  · rw [if_neg h]
    exact ⟨⟨fun ⟨e, he⟩ => absurd he (by simp), fun hgt => absurd hgt h⟩, fun _ => rfl⟩

/-- Witness for `custom_pauli_channel_spec`: a valid triple builds the full
distribution, and an over-unity triple fails. -/
theorem custom_pauli_channel_spec_witness :
    custom_pauli_channel (1/4) (1/4) (1/4) =
      .ok (.pauliError [(.X, 1/4), (.Y, 1/4), (.Z, 1/4), (.I, 1 - (1/4 + 1/4 + 1/4))]) ∧
    (∃ e, custom_pauli_channel 1 1 1 = .error e) :=
  ⟨(custom_pauli_channel_spec (1/4) (1/4) (1/4)).2 (by norm_num),
   (custom_pauli_channel_spec 1 1 1).1.mpr (by norm_num)⟩

/-- Counterexample to C6: at the out-of-range probability `p = 2`,
`bit_flip_channel` is *not* rejected — it hands the unclamped distribution
`[('X', 2), ('I', -1)]` to the backend; likewise `depolarizing_channel`
forwards `p = 3/2` unvalidated. -/
theorem single_param_channels_counterexample :
    bit_flip_channel 2 = .ok (.pauliError [(.X, 2), (.I, -1)]) ∧
    phase_flip_channel 2 = .ok (.pauliError [(.Z, 2), (.I, -1)]) ∧
    bit_phase_flip_channel 2 = .ok (.pauliError [(.Y, 2), (.I, -1)]) ∧
    depolarizing_channel (3/2) = .ok (.depolarizingError (3/2) 1) := by
  refine ⟨?_, ?_, ?_, rfl⟩ <;> · show Except.ok _ = _; norm_num

/-- C6 amended: the single-probability constructors contain no range check:
for every `p` outside `[0, 1]` they still return (unclamped, with `p`
verbatim) the distribution handed to the backend factory, and raise no
`InvalidArgument` of their own. -/
theorem single_param_channels_no_validation (p : ℚ) (_hp : p < 0 ∨ 1 < p) :
    bit_flip_channel p = .ok (.pauliError [(.X, p), (.I, 1 - p)]) ∧
    phase_flip_channel p = .ok (.pauliError [(.Z, p), (.I, 1 - p)]) ∧
    bit_phase_flip_channel p = .ok (.pauliError [(.Y, p), (.I, 1 - p)]) ∧
    depolarizing_channel p = .ok (.depolarizingError p 1) :=
  ⟨rfl, rfl, rfl, rfl⟩

/-- Witness for `single_param_channels_no_validation` at `p = 2`. -/
theorem single_param_channels_no_validation_witness :
    bit_flip_channel 2 = .ok (.pauliError [(.X, 2), (.I, 1 - 2)]) :=
  (single_param_channels_no_validation 2 (Or.inr (by norm_num))).1

/-! ## Python string helpers shared by the analysis functions -/

/-- Helper for Python's `str.split()`: split a character list on runs of
spaces, dropping empty fields. -/
def splitWSAux : List Char → List Char → List (List Char)
  | [], cur => if cur.isEmpty then [] else [cur.reverse]
  | c :: rest, cur =>
    if c = ' ' then
      if cur.isEmpty then splitWSAux rest [] else cur.reverse :: splitWSAux rest []
    else splitWSAux rest (c :: cur)

/-- Python `s.split()` (whitespace split; the measurement keys only ever
contain spaces). -/
def pySplit (s : String) : List String :=
  (splitWSAux s.toList []).map String.mk

/-- Python `s[-3:]`: the last three characters (clamped). -/
def pyLastThree (s : String) : String :=
  String.mk (s.toList.reverse.take 3).reverse

/-- Python `s.count(c)` for a single character. -/
def countChar (s : String) (c : Char) : ℕ :=
  (s.toList.filter (fun d => d == c)).length

/-- Display character of a measured classical bit. -/
def boolBit (b : Bool) : Char :=
  if b then '1' else '0'

/-! ## qec_codes.py — the 3-qubit bit-flip code

`create_bitflip_code` (qec_codes.py:4-74) uses only X and CNOT gates on the
all-zero computational-basis input, so every measurement outcome is
deterministic and the circuit is evaluated exactly by classical bit
updates, one `let` per gate in source order. -/

/-- The six classically-evaluated wires of the bit-flip circuit:
`logical` qubit, `physical[0..2]`, `syndrome[0..1]`. -/
structure BFState where
  logical : Bool
  p0 : Bool
  p1 : Bool
  p2 : Bool
  s0 : Bool
  s1 : Bool
deriving DecidableEq, Repr

/-- The `qc.x(physical_q[error_qubit])` error-injection gate. -/
def flipPhysQubit (st : BFState) (q : Fin 3) : BFState :=
  if q = 0 then { st with p0 := !st.p0 }
  else if q = 1 then { st with p1 := !st.p1 }
  else { st with p2 := !st.p2 }

/-- `create_bitflip_code(input_value, apply_error, error_qubit)`
(qec_codes.py:4-74), gate for gate: input X, the three encoding CNOTs, the
optional error X, and the four syndrome-extraction CNOTs; the final state
holds exactly the bits the two `measure` calls record. -/
def create_bitflip_run (input_value : Bool) (apply_error : Bool) (error_qubit : Fin 3) :
    BFState :=
  let st : BFState := ⟨false, false, false, false, false, false⟩
  -- STEP 2: if input_value == 1: qc.x(logical_q[0])
  let st := if input_value then { st with logical := !st.logical } else st
  -- STEP 3: encode
  let st := { st with p0 := xor st.p0 st.logical }
  let st := { st with p1 := xor st.p1 st.logical }
  let st := { st with p2 := xor st.p2 st.logical }
  -- STEP 4: optional error
  let st := if apply_error then flipPhysQubit st error_qubit else st
  -- STEP 5: syndrome extraction
  let st := { st with s0 := xor st.s0 st.p0 }
  let st := { st with s0 := xor st.s0 st.p1 }
  let st := { st with s1 := xor st.s1 st.p1 }
  let st := { st with s1 := xor st.s1 st.p2 }
  st

/-- The counts-dictionary key the backend reports for one shot of the
bit-flip circuit.  Per the backend's result format (recorded in this
repository in five_qubit_code.py:250 and steane_code.py:265: the classical
register added *last* is printed leftmost, and within a register the
highest bit index is leftmost), the circuit's registers
`(syndrome_bits, physical_bits)` produce the key
`"p2 p1 p0 <space> s1 s0"`. -/
def bitflipCountsKey (st : BFState) : String :=
  String.mk [boolBit st.p2, boolBit st.p1, boolBit st.p0, ' ', boolBit st.s1, boolBit st.s0]

/-- The field of the counts key that `analyze_results` (qec_codes.py:106-158)
takes as the physical bits: `parts[1]` after `bitstring.split()` when there
are two fields, else the last three characters. -/
def analyze_physical_field (bitstring : String) : String :=
  let parts := pySplit bitstring
  if parts.length = 2 then parts.getD 1 "" else pyLastThree bitstring

/-- The per-bitstring majority-vote result of `analyze_results`
(qec_codes.py:135-140): `1 if ones > zeros else 0` over the characters of
the extracted field. -/
def analyze_result_bit (bitstring : String) : ℕ :=
  let physical_bits := analyze_physical_field bitstring
  if countChar physical_bits '1' > countChar physical_bits '0' then 1 else 0

/-- Majority vote over the three *measured physical bits* themselves — the
computation C3 (and qec_codes.py's own comments) intend: `1` iff the ones
outnumber the zeros among `p0, p1, p2`. -/
def majority3 (a b c : Bool) : ℕ :=
  let ones := (if a then 1 else 0) + (if b then 1 else 0) + (if c then 1 else 0)
  let zeros := (if a then 0 else 1) + (if b then 0 else 1) + (if c then 0 else 1)
  if ones > zeros then 1 else 0

/-- C3 (code bug): with no noise the circuit is deterministic and its
syndrome `(s0, s1) = (p0⊕p1, p1⊕p2)` uniquely identifies the errored qubit
— `(1,0)`, `(1,1)`, `(0,1)` for qubits 0, 1, 2 — and majority vote over the
three measured physical bits recovers the input for every input and error
position; but `analyze_results` majority-votes `parts[1]` of the counts
key, which under the backend's key format is the 2-bit *syndrome* field,
so at input=1 with an X error on qubit 0 it reports recovered value 0
(the claimed input=1, qubit-1 scenario only recovers 1 because syndrome
`"11"` coincidentally majority-votes to 1). -/
theorem bitflip_roundtrip_and_analyze_mismatch :
    (∀ i : Bool,
      ((create_bitflip_run i true 0).s0, (create_bitflip_run i true 0).s1) = (true, false) ∧
      ((create_bitflip_run i true 1).s0, (create_bitflip_run i true 1).s1) = (true, true) ∧
      ((create_bitflip_run i true 2).s0, (create_bitflip_run i true 2).s1) = (false, true) ∧
      ((create_bitflip_run i false 0).s0, (create_bitflip_run i false 0).s1) = (false, false)) ∧
    (∀ i : Bool, ∀ q : Fin 3,
      majority3 (create_bitflip_run i true q).p0 (create_bitflip_run i true q).p1
        (create_bitflip_run i true q).p2 = (if i then 1 else 0)) ∧
    bitflipCountsKey (create_bitflip_run true true 1) = "101 11" ∧
    analyze_result_bit (bitflipCountsKey (create_bitflip_run true true 1)) = 1 ∧
    bitflipCountsKey (create_bitflip_run true true 0) = "110 01" ∧
    analyze_result_bit (bitflipCountsKey (create_bitflip_run true true 0)) = 0 ∧
    majority3 (create_bitflip_run true true 0).p0 (create_bitflip_run true true 0).p1
      (create_bitflip_run true true 0).p2 = 1 := by
  decide

/-! ## qec_codes.py — success/failure aggregation (C9)

`analyze_results` walks the counts dictionary once, adding each entry's
count to `success` when the majority-vote result equals `input_value` and
to `failure` otherwise.  A counts dictionary is modelled as its key set
plus a count function; iteration order (the Python `sorted`) cannot change
the sums. -/

/-- The `success` tally of `analyze_results` (qec_codes.py:142-146). -/
def successTally (support : Finset String) (counts : String → ℕ) (input_value : ℕ) : ℕ :=
  ∑ k ∈ support, if analyze_result_bit k = input_value then counts k else 0

/-- The `failure` tally of `analyze_results` (qec_codes.py:142-146). -/
def failureTally (support : Finset String) (counts : String → ℕ) (input_value : ℕ) : ℕ :=
  ∑ k ∈ support, if analyze_result_bit k = input_value then 0 else counts k

/-- C9: tallying on the pointwise sum of two counts dictionaries gives the
sum of the separate tallies, for both successes and failures — so batches
may be split and their statistics summed. -/
theorem analyze_results_tally_additive (support : Finset String) (c1 c2 : String → ℕ)
    (v : ℕ) :
    successTally support (fun k => c1 k + c2 k) v
        = successTally support c1 v + successTally support c2 v ∧
    failureTally support (fun k => c1 k + c2 k) v
        = failureTally support c1 v + failureTally support c2 v := by
  constructor <;>
  · simp only [successTally, failureTally, ← Finset.sum_add_distrib]
    refine Finset.sum_congr rfl fun k _ => ?_
    by_cases h : analyze_result_bit k = v <;> simp [h]

/-! ## five_qubit_code.py — `analyze_five_qubit_results` (C7) -/

/-- The syndrome field `analyze_five_qubit_results` extracts from one
measurement key (five_qubit_code.py:248-259): `bits[1]` of
`measurement.split()` when there are two fields, otherwise characters
`[5:9]` of the key with spaces removed. -/
def extract_syndrome_bits (measurement : String) : String :=
  let bits := pySplit measurement
  if bits.length = 2 then bits.getD 1 ""
  else String.mk (((measurement.toList.filter (fun c => c != ' ')).drop 5).take 4)

/-- The `successful` tally of `analyze_five_qubit_results`
(five_qubit_code.py:238-273): a shot's count is added exactly when its
syndrome field is `'0000'`; `input_value` is printed but never used. -/
def analyze_five_qubit_successful (counts : List (String × ℕ)) (_input_value : ℕ) : ℕ :=
  counts.foldl
    (fun successful e =>
      if extract_syndrome_bits e.1 = "0000" then successful + e.2 else successful) 0

/-- The syndrome register's display string: 4 classical bits, highest index
leftmost. -/
def synBitsString (sb : Fin 4 → Bool) : String :=
  String.mk [boolBit (sb 3), boolBit (sb 2), boolBit (sb 1), boolBit (sb 0)]

/-- A five-qubit-code counts key: physical register (5 bits, added last, so
leftmost — the format five_qubit_code.py:250 documents as `c_phys c_syn`)
then the syndrome register. -/
def fiveQubitCountsKey (pb : Fin 5 → Bool) (sb : Fin 4 → Bool) : String :=
  String.mk [boolBit (pb 4), boolBit (pb 3), boolBit (pb 2), boolBit (pb 1), boolBit (pb 0),
    ' ', boolBit (sb 3), boolBit (sb 2), boolBit (sb 1), boolBit (sb 0)]

/-- Accumulator form of the `successful` tally loop. -/
theorem analyze_five_qubit_foldl (counts : List (String × ℕ)) (acc : ℕ) :
    counts.foldl
      (fun successful e =>
        if extract_syndrome_bits e.1 = "0000" then successful + e.2 else successful) acc =
    acc + (counts.map (fun e => if extract_syndrome_bits e.1 = "0000" then e.2 else 0)).sum := by
  induction counts generalizing acc with
  | nil => simp
  | cons e rest ih =>
    simp only [List.foldl_cons, List.map_cons, List.sum_cons]
    by_cases h : extract_syndrome_bits e.1 = "0000" <;> simp [h, ih]
    omega

/-- C7: `analyze_five_qubit_results` counts a shot as successful iff its
syndrome field is `'0000'`: the tally is the sum of the counts of the
zero-syndrome entries, it does not depend on `input_value`, and on a
well-formed key the extracted field is exactly the 4 syndrome bits,
whatever the 5 physical data bits are. -/
theorem five_qubit_success_iff_zero_syndrome (counts : List (String × ℕ)) (v w : ℕ) :
    analyze_five_qubit_successful counts v =
      (counts.map (fun e => if extract_syndrome_bits e.1 = "0000" then e.2 else 0)).sum ∧
    analyze_five_qubit_successful counts v = analyze_five_qubit_successful counts w ∧
    (∀ pb : Fin 5 → Bool, ∀ sb : Fin 4 → Bool,
      extract_syndrome_bits (fiveQubitCountsKey pb sb) = synBitsString sb) := by
  refine ⟨?_, ?_, by decide⟩
  · simpa using analyze_five_qubit_foldl counts 0
  · rfl

/-! ## steane_code.py — syndrome-extraction circuit structure (C8) -/

/-- A wire of the Steane-code circuit: data qubit, X-syndrome ancilla, or
Z-syndrome ancilla. -/
inductive SQubit where
  | phys (i : Fin 7)
  | synX (i : Fin 3)
  | synZ (i : Fin 3)
deriving DecidableEq, Repr

/-- One operation emitted by `create_steane_code`. -/
inductive SGate where
  | h (q : SQubit)
  | x (q : SQubit)
  | y (q : SQubit)
  | z (q : SQubit)
  | cx (c t : SQubit)
  | barrier
  | measure (q : SQubit)
deriving DecidableEq, Repr

/-- Error type selected by the CLI (`--error-type`, choices X/Z/Y). -/
inductive ErrKind where
  | X
  | Z
  | Y
deriving DecidableEq, Repr, Fintype

/-- `create_steane_code(input_value, apply_error, error_qubit, error_type)`
(steane_code.py:29-154), gate for gate in source order: input X, encoding
(4 H + 9 CNOT), optional error injection, the three Hadamard-sandwiched
X-stabilizer blocks, the three Z-stabilizer blocks, and the measurements. -/
def create_steane_code (input_value : Bool) (apply_error : Bool) (error_qubit : Fin 7)
    (error_type : ErrKind) : List SGate :=
  (if input_value then [SGate.x (.phys 0)] else []) ++
  [SGate.h (.phys 0), SGate.h (.phys 2), SGate.h (.phys 4), SGate.h (.phys 6),
   SGate.cx (.phys 0) (.phys 1), SGate.cx (.phys 2) (.phys 1), SGate.cx (.phys 2) (.phys 3),
   SGate.cx (.phys 4) (.phys 3), SGate.cx (.phys 4) (.phys 5), SGate.cx (.phys 6) (.phys 5),
   SGate.cx (.phys 0) (.phys 6), SGate.cx (.phys 2) (.phys 6), SGate.cx (.phys 4) (.phys 6),
   SGate.barrier] ++
  (if apply_error then
    (match error_type with
     | .X => [SGate.x (.phys error_qubit)]
     | .Z => [SGate.z (.phys error_qubit)]
     | .Y => [SGate.y (.phys error_qubit)]) ++ [SGate.barrier]
   else []) ++
  [SGate.h (.synX 0),
   SGate.cx (.synX 0) (.phys 0), SGate.cx (.synX 0) (.phys 1),
   SGate.cx (.synX 0) (.phys 2), SGate.cx (.synX 0) (.phys 3),
   SGate.h (.synX 0),
   SGate.h (.synX 1),
   SGate.cx (.synX 1) (.phys 2), SGate.cx (.synX 1) (.phys 3),
   SGate.cx (.synX 1) (.phys 4), SGate.cx (.synX 1) (.phys 5),
   SGate.h (.synX 1),
   SGate.h (.synX 2),
   SGate.cx (.synX 2) (.phys 4), SGate.cx (.synX 2) (.phys 5),
   SGate.cx (.synX 2) (.phys 6), SGate.cx (.synX 2) (.phys 0),
   SGate.h (.synX 2),
   SGate.barrier,
   SGate.cx (.phys 0) (.synZ 0), SGate.cx (.phys 1) (.synZ 0),
   SGate.cx (.phys 2) (.synZ 0), SGate.cx (.phys 3) (.synZ 0),
   SGate.cx (.phys 2) (.synZ 1), SGate.cx (.phys 3) (.synZ 1),
   SGate.cx (.phys 4) (.synZ 1), SGate.cx (.phys 5) (.synZ 1),
   SGate.cx (.phys 4) (.synZ 2), SGate.cx (.phys 5) (.synZ 2),
   SGate.cx (.phys 6) (.synZ 2), SGate.cx (.phys 0) (.synZ 2),
   SGate.barrier,
   SGate.measure (.synX 0), SGate.measure (.synX 1), SGate.measure (.synX 2),
   SGate.measure (.synZ 0), SGate.measure (.synZ 1), SGate.measure (.synZ 2),
   SGate.measure (.phys 0), SGate.measure (.phys 1), SGate.measure (.phys 2),
   SGate.measure (.phys 3), SGate.measure (.phys 4), SGate.measure (.phys 5),
   SGate.measure (.phys 6)]

/-- Whether a gate acts on the wire `q`. -/
def touchesQubit (q : SQubit) : SGate → Bool
  | .h r => r == q
  | .x r => r == q
  | .y r => r == q
  | .z r => r == q
  | .cx c t => c == q || t == q
  | .barrier => false
  | .measure r => r == q

/-- Support qubits of the k-th stabilizer generator (same supports for the
X-type and Z-type generators: `{0,1,2,3}`, `{2,3,4,5}`, `{4,5,6,0}`). -/
def steaneSupport : Fin 3 → List (Fin 7)
  | 0 => [0, 1, 2, 3]
  | 1 => [2, 3, 4, 5]
  | 2 => [4, 5, 6, 0]

/-- C8: in the Steane circuit, whatever the input and the injected error,
the complete action on the k-th X-syndrome ancilla is a Hadamard sandwich
around controlled-X gates *from* the ancilla onto exactly the four support
qubits of the k-th stabilizer (then its measurement), and the complete
action on the k-th Z-syndrome ancilla is controlled-X gates from exactly
those four support qubits onto the ancilla with no basis change (then its
measurement). -/
theorem steane_gadget_structure (iv ae : Bool) (eq : Fin 7) (et : ErrKind) (k : Fin 3) :
    (create_steane_code iv ae eq et).filter (touchesQubit (.synX k)) =
      [SGate.h (.synX k)] ++
        (steaneSupport k).map (fun d => SGate.cx (.synX k) (.phys d)) ++
        [SGate.h (.synX k), SGate.measure (.synX k)] ∧
    (create_steane_code iv ae eq et).filter (touchesQubit (.synZ k)) =
      (steaneSupport k).map (fun d => SGate.cx (.phys d) (.synZ k)) ++
        [SGate.measure (.synZ k)] := by
  revert iv ae eq et k
  decide

end QECEmu
